import Mathlib

/-!
Shallow embedding of `src/PresageTesting/hello_vitals.cpp` (the single source
file of the repository): a session driver that resolves credentials and a video
source from argv/environment, constructs an external SmartSpectra Processing
Container, registers three callbacks, then calls `Initialize` and `Run`.

The external SDK (container construction, registration, `Initialize`, `Run`)
is opaque vendor code; its results are supplied by an oracle in `World`.  The
driver's own control flow, parsing, printing and exit codes are embedded
faithfully from the source.  Console output is modelled as a list of `Line`
values, one constructor per distinct message the program prints.
-/

namespace HelloVitals

/-- absl::Status as observed by the driver: `ok` or an error carrying a
message (`status.message()`). -/
inductive Status where
  | ok : Status
  | error : String → Status
deriving DecidableEq, Repr

/-- C++ `status.ok()`. -/
def Status.isOk : Status → Bool
  | Status.ok => true
  | Status.error _ => false

/-- C++ `status.message()` (empty for an ok status). -/
def Status.message : Status → String
  | Status.ok => ""
  | Status.error m => m

/-- Outcome returned by a registered callback: `absl::OkStatus()` or
`absl::CancelledError(msg)`. -/
inductive CallbackStatus where
  | ok : CallbackStatus
  | cancelled : String → CallbackStatus
deriving DecidableEq, Repr

/-- Characters treated as leading whitespace by `std::stoi` (via `std::isspace`
in the default locale). -/
def isSpaceChar (c : Char) : Bool :=
  c = ' ' || c = '\t' || c = '\n' || c = '\r' || c = '\x0b' || c = '\x0c'

/-- Numeric value of a run of decimal digits. -/
def digitsVal (cs : List Char) : Nat :=
  cs.foldl (fun a c => a * 10 + (c.toNat - 48)) 0

/-- Parse as `std::stoi` does: skip leading whitespace, an optional sign, then a non-empty
run of decimal digits (trailing garbage ignored).  `none` models a thrown
exception: `invalid_argument` when no digits can be parsed, `out_of_range`
when the value does not fit a 32-bit `int`. -/
def stoiInt (s : String) : Option Int :=
  let cs := s.data.dropWhile isSpaceChar
  let signed : Int × List Char :=
    match cs with
    | '+' :: rest => (1, rest)
    | '-' :: rest => (-1, rest)
    | _ => (1, cs)
  let digits := signed.2.takeWhile Char.isDigit
  if digits.isEmpty then none
  else
    let v : Int := signed.1 * (digitsVal digits : Int)
    if v < -2147483648 ∨ 2147483647 < v then none else some v

/-- Metrics snapshot (`presage::physiology::MetricsBuffer`) as read by the
driver: the time-ordered `value()`s of the repeated `pulse().rate()` and
`breathing().rate()` fields.  `rbegin()->value()` on a non-empty series is the
last element of the corresponding list. -/
structure MetricsBuffer where
  pulseRate : List Rat
  breathingRate : List Rat
deriving DecidableEq, Repr

/-- Observable behaviour of one metrics-callback invocation: the vitals line
printed, if any, as its (pulse, breathing) payload; the series on which
`rbegin()->value()` was evaluated; and the returned status. -/
structure MetricsCbResult where
  line : Option (Rat × Rat)
  reads : List (List Rat)
  status : CallbackStatus
deriving DecidableEq, Repr

/-- The lambda passed to `SetOnCoreMetricsOutput` (hello_vitals.cpp, lines
121-137): `pulse`/`breathing` start at 0, each is overwritten with
`rbegin()->value()` of its series when that series is non-empty, and the
vitals line is printed only when both series are non-empty. -/
def metricsCallback (m : MetricsBuffer) : MetricsCbResult :=
  let pulse0 : Rat := 0
  let breathing0 : Rat := 0
  let pulseStep : Rat × List (List Rat) :=
    if m.pulseRate.isEmpty then (pulse0, [])
    else ((m.pulseRate.getLast?).getD 0, [m.pulseRate])
  let breathingStep : Rat × List (List Rat) :=
    if m.breathingRate.isEmpty then (breathing0, [])
    else ((m.breathingRate.getLast?).getD 0, [m.breathingRate])
  { line :=
      if !m.pulseRate.isEmpty && !m.breathingRate.isEmpty then
        some (pulseStep.1, breathingStep.1)
      else none
    reads := pulseStep.2 ++ breathingStep.2
    status := CallbackStatus.ok }

/-- Observable behaviour of one video-callback invocation. -/
structure VideoCbResult where
  displayed : Bool
  polled : Bool
  status : CallbackStatus
deriving DecidableEq, Repr

/-- The byte the driver compares against quit keys: `cv::waitKey(1) & 0xFF`.
`waitKey` returns -1 when no key is pressed, so the byte is then 255. -/
def keyByte (waitKeyRet : Int) : Int := waitKeyRet % 256

/-- The key byte requests quit: `'q'` (113) or escape (27).  Bytes ≥ 128 are
negative as a signed `char` and equal neither literal. -/
def isQuitKey (waitKeyRet : Int) : Prop :=
  keyByte waitKeyRet = 113 ∨ keyByte waitKeyRet = 27

instance (k : Int) : Decidable (isQuitKey k) := by
  unfold isQuitKey; infer_instance

/-- The lambda passed to `SetOnVideoOutput` (hello_vitals.cpp, lines 143-154):
when not headless it shows the frame, polls `waitKey`, and returns
`CancelledError("User quit")` on a quit key; when headless it does nothing and
returns ok. -/
def videoCallback (headless : Bool) (waitKeyRet : Int) : VideoCbResult :=
  if !headless then
    if isQuitKey waitKeyRet then
      { displayed := true, polled := true, status := CallbackStatus.cancelled "User quit" }
    else
      { displayed := true, polled := true, status := CallbackStatus.ok }
  else
    { displayed := false, polled := false, status := CallbackStatus.ok }

/-- Environment variables read by the program, each `none` when unset. -/
structure EnvVars where
  apiKey : Option String
  cameraIndex : Option String
  inputVideo : Option String
  width : Option String
  height : Option String
  headless : Option String

/-- One event delivered by the external pipeline during `Run`: a video frame
(with the value `cv::waitKey(1)` would return during its callback), a metrics
snapshot, or an internal processing error. -/
inductive RunEvent where
  | videoTick : Int → RunEvent
  | metricsTick : MetricsBuffer → RunEvent
  | internalError : String → RunEvent

/-- Modelled from the spec: the external Processing Container's `Run` loop is
vendor SDK code, not part of this repository.  Per the spec (§4.1, §5, §7),
`Run` blocks until natural stream end or user cancellation — a cancellation
outcome returned from a callback stops the loop as a normal terminal path,
not an error — or until an internal processing error, which it returns as a
non-ok status. -/
def runLoop (headless : Bool) (events : List RunEvent) : Status :=
  match events with
  | [] => Status.ok
  | RunEvent.internalError msg :: _ => Status.error msg
  | RunEvent.metricsTick m :: rest =>
    match (metricsCallback m).status with
    | CallbackStatus.cancelled _ => Status.ok
    | CallbackStatus.ok => runLoop headless rest
  | RunEvent.videoTick k :: rest =>
    match (videoCallback headless k).status with
    | CallbackStatus.cancelled _ => Status.ok
    | CallbackStatus.ok => runLoop headless rest

/-- The program's input and the oracle for the opaque SDK calls: argv beyond
the program name, the environment, whether `std::ifstream(path).good()` holds
for each path, whether container construction throws, the statuses returned
by the three registration calls and `Initialize`, and the events the pipeline
delivers during `Run`. -/
structure World where
  argv1 : Option String
  env : EnvVars
  fileGood : String → Bool
  constructorThrows : Option String
  setMetricsResult : Status
  setVideoResult : Status
  setStatusResult : Status
  initResult : Status
  runEvents : List RunEvent

/-- The `settings.video_source` record as assembled at lines 75-81. -/
structure VideoSource where
  device_index : Int
  capture_width_px : Int
  capture_height_px : Int
  codec : String
  auto_lock : Bool
  input_video_path : String
  input_video_time_path : String
deriving DecidableEq, Repr

/-- The settings record handed to the container constructor (lines 69-96). -/
structure Settings where
  video_source : VideoSource
  headless : Bool
  enable_edge_metrics : Bool
  verbosity_level : Int
  preprocessed_data_buffer_duration_s : Rat
  api_key : String
deriving DecidableEq, Repr

/-- One console message; each constructor stands for the exact text the
program prints at the cited line of hello_vitals.cpp. -/
inductive Line where
  /-- Message "Usage: ./hello_vitals YOUR_API_KEY" (line 32) -/
  | usage1 : Line
  /-- Message "Or set SMARTSPECTRA_API_KEY environment variable" (line 33) -/
  | usage2 : Line
  /-- Message "Get your API key from: https://physiology.presagetech.com" (line 34) -/
  | usage3 : Line
  /-- Message "API key is empty. Pass it as argv[1] or set SMARTSPECTRA_API_KEY." (line 39) -/
  | emptyKey : Line
  /-- Message "Using API key from SOURCE (length=N)" (line 42) -/
  | usingKey : String → Nat → Line
  /-- Message "Starting SmartSpectra Hello Vitals..." (line 44) -/
  | starting : Line
  /-- Message "SMARTSPECTRA_CAMERA_INDEX is not a valid integer; defaulting to 0" (line 53, stderr) -/
  | cameraIndexWarning : Line
  /-- Message "Using device_index=I" plus " input_video_path=P" when P non-empty (line 106) -/
  | deviceEcho : Int → String → Line
  /-- Message "ERROR: Input video file not found: P" (line 113, stderr) -/
  | fileNotFound : String → Line
  /-- Message "Make sure the file exists and the path is correct." (line 114, stderr) -/
  | fileHint : Line
  /-- Message "Video file found at: P" (line 117) -/
  | fileFound : String → Line
  /-- Message "Failed to set metrics callback: MSG" (line 139, stderr) -/
  | setMetricsFailed : String → Line
  /-- Message "Failed to set video callback: MSG" (line 156, stderr) -/
  | setVideoFailed : String → Line
  /-- Message "Failed to set status callback: MSG" (line 167, stderr) -/
  | setStatusFailed : String → Line
  /-- Message "Initializing camera and processing..." (line 172) -/
  | initializing : Line
  /-- Message "Failed to initialize: MSG" (line 174, stderr) -/
  | initFailed : String → Line
  /-- Message "Ready! Press 's' to start/stop recording data. Press 'q' to quit." (line 178) -/
  | ready : Line
  /-- Message "Processing failed: MSG" (line 180, stderr) -/
  | processingFailed : String → Line
  /-- Message "Done!" (line 185) -/
  | done : Line
  /-- Message "Error: MSG" printed by the top-level catch (line 189, stderr) -/
  | topLevelError : String → Line
deriving DecidableEq, Repr

/-- Everything observable about one program execution. -/
structure Trace where
  exitCode : Nat
  out : List Line
  errOut : List Line
  containerConstructed : Bool
  constructionSettings : Option Settings
  initializeInvoked : Bool
  runInvoked : Bool
  windowsDestroyed : Bool
  exceptionCaught : Bool
deriving DecidableEq, Repr

/-- The empty trace all executions start from. -/
def t0 : Trace :=
  { exitCode := 0
    out := []
    errOut := []
    containerConstructed := false
    constructionSettings := none
    initializeInvoked := false
    runInvoked := false
    windowsDestroyed := false
    exceptionCaught := false }

/-- Credential resolution (lines 25-31): argv[1] when `argc > 1`, else the
`SMARTSPECTRA_API_KEY` environment variable; the second component names the
source echoed at line 42. -/
def resolveApiKey (w : World) : Option (String × String) :=
  match w.argv1 with
  | some k => some (k, "argv[1]")
  | none =>
    match w.env.apiKey with
    | some k => some (k, "SMARTSPECTRA_API_KEY")
    | none => none

/-- The resolved credential string, when any source is present. -/
def resolvedApiKey (w : World) : Option String :=
  (resolveApiKey w).map Prod.fst

/-- Device-index resolution (lines 48-56): `stoi` of
`SMARTSPECTRA_CAMERA_INDEX` when set; a parse failure is caught locally,
prints a warning and leaves the default 0. -/
def resolveDeviceIndex (env : EnvVars) : Int × List Line :=
  match env.cameraIndex with
  | none => (0, [])
  | some s =>
    match stoiInt s with
    | some v => (v, [])
    | none => (0, [Line.cameraIndexWarning])

/-- Width/height resolution (lines 62-66): the default when the variable is
unset, else an unguarded `stoi` whose failure (`none`) propagates as a thrown
exception. -/
def parseDim (envVal : Option String) (dflt : Int) : Option Int :=
  match envVal with
  | none => some dflt
  | some s => stoiInt s

/-- Headless resolution (lines 84-87): true iff `SMARTSPECTRA_HEADLESS` is
set to "1" or "true". -/
def resolveHeadless (env : EnvVars) : Bool :=
  match env.headless with
  | none => false
  | some s => s = "1" || s = "true"

/-- Body of the `try` block (lines 46-186).  `Except.error (msg, t)` models an
exception with `what() = msg` escaping to the top-level handler after the
observations in `t`; `Except.ok t` models a normal `return`. -/
def tryBody (w : World) (apiKey : String) (pre : List Line) : Except (String × Trace) Trace :=
  let dev := resolveDeviceIndex w.env
  let inputVideoPath : String := (w.env.inputVideo).getD ""
  let t1 := { t0 with out := pre, errOut := dev.2 }
  match parseDim w.env.width 640 with
  | none => Except.error ("stoi", t1)
  | some captureWidth =>
  match parseDim w.env.height 480 with
  | none => Except.error ("stoi", t1)
  | some captureHeight =>
  let headless := resolveHeadless w.env
  let settings : Settings :=
    { video_source :=
        { device_index := dev.1
          capture_width_px := captureWidth
          capture_height_px := captureHeight
          codec := "MJPG"
          auto_lock := true
          input_video_path := inputVideoPath
          input_video_time_path := "" }
      headless := headless
      enable_edge_metrics := true
      verbosity_level := 1
      preprocessed_data_buffer_duration_s := (0.5 : Rat)
      api_key := apiKey }
  match w.constructorThrows with
  | some msg => Except.error (msg, t1)
  | none =>
  let t2 := { t1 with
    containerConstructed := true
    constructionSettings := some settings
    out := t1.out ++ [Line.deviceEcho dev.1 inputVideoPath] }
  if inputVideoPath.isEmpty then
    tryBodyRest w headless t2
  else if w.fileGood inputVideoPath then
    tryBodyRest w headless
      { t2 with out := t2.out ++ [Line.fileFound inputVideoPath] }
  else
    Except.ok { t2 with
      exitCode := 1
      errOut := t2.errOut ++ [Line.fileNotFound inputVideoPath, Line.fileHint] }
where
  /-- Registrations, `Initialize` and `Run` (lines 121-186), after the input
  file check passed or was skipped. -/
  tryBodyRest (w : World) (headless : Bool) (t : Trace) : Except (String × Trace) Trace :=
    if !w.setMetricsResult.isOk then
      Except.ok { t with
        exitCode := 1
        errOut := t.errOut ++ [Line.setMetricsFailed w.setMetricsResult.message] }
    else if !w.setVideoResult.isOk then
      Except.ok { t with
        exitCode := 1
        errOut := t.errOut ++ [Line.setVideoFailed w.setVideoResult.message] }
    else if !w.setStatusResult.isOk then
      Except.ok { t with
        exitCode := 1
        errOut := t.errOut ++ [Line.setStatusFailed w.setStatusResult.message] }
    else
      let t4 := { t with
        initializeInvoked := true
        out := t.out ++ [Line.initializing] }
      if !w.initResult.isOk then
        Except.ok { t4 with
          exitCode := 1
          errOut := t4.errOut ++ [Line.initFailed w.initResult.message] }
      else
        let t5 := { t4 with runInvoked := true, out := t4.out ++ [Line.ready] }
        match runLoop headless w.runEvents with
        | Status.error msg =>
          Except.ok { t5 with
            exitCode := 1
            errOut := t5.errOut ++ [Line.processingFailed msg] }
        | Status.ok =>
          Except.ok { t5 with
            exitCode := 0
            windowsDestroyed := true
            out := t5.out ++ [Line.done] }

/-- The whole `main` (lines 17-192): credential resolution and the empty-key
check before the `try` block, then `tryBody` with the top-level catch mapping
any escaped exception to a logged error and exit code 1. -/
def helloVitalsMain (w : World) : Trace :=
  match resolveApiKey w with
  | none =>
    { t0 with exitCode := 1, out := [Line.usage1, Line.usage2, Line.usage3] }
  | some ks =>
    if ks.1.isEmpty then
      { t0 with exitCode := 1, out := [Line.emptyKey] }
    else
      let pre := [Line.usingKey ks.2 ks.1.length, Line.starting]
      match tryBody w ks.1 pre with
      | Except.ok t => t
      | Except.error mt =>
        { mt.2 with
          exitCode := 1
          errOut := mt.2.errOut ++ [Line.topLevelError mt.1]
          exceptionCaught := true }

/-- The input video path the program ends up configuring: the
`SMARTSPECTRA_INPUT_VIDEO` variable, or "" when unset. -/
def inputVideoPathOf (w : World) : String := (w.env.inputVideo).getD ""

/-- Every step inside the `try` block succeeds: width/height parse, container
construction, the input-file check (when a path is configured), the three
registrations, `Initialize` and `Run`. -/
def tryConditions (w : World) : Prop :=
  (parseDim w.env.width 640).isSome = true ∧
  (parseDim w.env.height 480).isSome = true ∧
  w.constructorThrows = none ∧
  (inputVideoPathOf w = "" ∨ w.fileGood (inputVideoPathOf w) = true) ∧
  w.setMetricsResult = Status.ok ∧
  w.setVideoResult = Status.ok ∧
  w.setStatusResult = Status.ok ∧
  w.initResult = Status.ok ∧
  runLoop (resolveHeadless w.env) w.runEvents = Status.ok

/-- The success path: a non-empty credential was resolved and every later
step succeeded.  `exitCode = 0` will be shown equivalent to this predicate. -/
def success (w : World) : Prop :=
  (∃ k, resolvedApiKey w = some k ∧ k ≠ "") ∧ tryConditions w

/-- An event the `Run` loop processes without stopping. -/
def eventContinues (headless : Bool) : RunEvent → Prop
  | RunEvent.internalError _ => False
  | RunEvent.videoTick k => (videoCallback headless k).status = CallbackStatus.ok
  | RunEvent.metricsTick _ => True

/-- Environment with every variable unset. -/
def emptyEnv : EnvVars :=
  { apiKey := none, cameraIndex := none, inputVideo := none,
    width := none, height := none, headless := none }

/-- A benign world: credential on the command line, no environment overrides,
every file readable, every SDK call succeeding, an immediately-ending stream. -/
def benignWorld : World :=
  { argv1 := some "demo-key"
    env := emptyEnv
    fileGood := fun _ => true
    constructorThrows := none
    setMetricsResult := Status.ok
    setVideoResult := Status.ok
    setStatusResult := Status.ok
    initResult := Status.ok
    runEvents := [] }

/-- Concrete input refuting C2 as stated: the command line supplies an empty
credential while the environment holds a non-empty one. -/
def wC2 : World :=
  { benignWorld with argv1 := some "", env := { emptyEnv with apiKey := some "secret" } }

/-- Concrete input for C3/C4: a configured input video path that is not
readable. -/
def wMissingFile : World :=
  { benignWorld with
    env := { emptyEnv with inputVideo := some "/missing.mp4" }
    fileGood := fun _ => false }

/-- Concrete input for C3 (existing file) and C4's witness: a configured
input video path that is readable. -/
def wGoodFile : World :=
  { benignWorld with env := { emptyEnv with inputVideo := some "/ok.mp4" } }

/-- Concrete input for C6/C9: the second frame's poll returns `'q'`. -/
def wQuit : World :=
  { benignWorld with runEvents := [RunEvent.videoTick (-1), RunEvent.videoTick 113] }

/-- Concrete input for C8: a non-integer camera-index variable. -/
def wBadCamera : World :=
  { benignWorld with env := { emptyEnv with cameraIndex := some "abc" } }

/-- Concrete input for C10: a non-integer width variable. -/
def wBadWidth : World :=
  { benignWorld with env := { emptyEnv with width := some "wide" } }

/-- The same world with the camera-index variable unset, for comparing
outcomes in C8. -/
def dropCameraIndex (w : World) : World :=
  { w with env := { w.env with cameraIndex := none } }

/-- The settings record `wGoodFile` is constructed with. -/
def cfgGood : Settings :=
  { video_source :=
      { device_index := 0
        capture_width_px := 640
        capture_height_px := 480
        codec := "MJPG"
        auto_lock := true
        input_video_path := "/ok.mp4"
        input_video_time_path := "" }
    headless := false
    enable_edge_metrics := true
    verbosity_level := 1
    preprocessed_data_buffer_duration_s := (0.5 : Rat)
    api_key := "demo-key" }

/-- Helper: `status.ok()` holds exactly for `Status.ok`. -/
theorem Status.isOk_iff (s : Status) : s.isOk = true ↔ s = Status.ok := by
  cases s <;> simp [Status.isOk]

/-- Helper: `!status.ok()` holds exactly for error statuses. -/
theorem Status.isOk_false_iff (s : Status) : s.isOk = false ↔ s ≠ Status.ok := by
  cases s <;> simp [Status.isOk]

/-- Helper: a cancellation outcome from the video callback stops the `Run`
loop with an ok status, whatever events would have followed. -/
theorem runLoop_cancel_ok (headless : Bool) (pre : List RunEvent) (k : Int)
    (post : List RunEvent)
    (hcont : ∀ e ∈ pre, eventContinues headless e)
    (msg : String)
    (hcancel : (videoCallback headless k).status = CallbackStatus.cancelled msg) :
    runLoop headless (pre ++ RunEvent.videoTick k :: post) = Status.ok := by
  induction pre with
  | nil => simp [runLoop, hcancel]
  | cons e rest ih =>
    have he := hcont e (List.mem_cons_self e rest)
    have hrest : ∀ e ∈ rest, eventContinues headless e :=
      fun x hx => hcont x (List.mem_cons_of_mem e hx)
    cases e with
    | internalError m => exact absurd he (by simp [eventContinues])
    | metricsTick m =>
      simp only [List.cons_append, runLoop, metricsCallback]
      exact ih hrest
    | videoTick k' =>
      have he' : (videoCallback headless k').status = CallbackStatus.ok := he
      simp only [List.cons_append, runLoop, he']
      exact ih hrest

/-- Helper: full characterization of the registration/Initialize/Run tail of
the `try` block.  It never throws, it preserves the construction-time
observations, it only appends progress lines to stdout and step-failure lines
to stderr, and its exit code is 0 exactly when the registrations,
`Initialize` and `Run` all succeed. -/
theorem tryBodyRest_spec (w : World) (headless : Bool) (t : Trace)
    (ht : t.runInvoked = false) :
    ∃ t', tryBody.tryBodyRest w headless t = Except.ok t' ∧
      t'.constructionSettings = t.constructionSettings ∧
      t'.containerConstructed = t.containerConstructed ∧
      t'.exceptionCaught = t.exceptionCaught ∧
      (∀ l ∈ t.out, l ∈ t'.out) ∧
      (∀ l, l ∈ t'.out → l ∈ t.out ∨ l = Line.initializing ∨ l = Line.ready ∨ l = Line.done) ∧
      (∀ l ∈ t.errOut, l ∈ t'.errOut) ∧
      (∀ p, Line.fileNotFound p ∉ t.errOut → Line.fileNotFound p ∉ t'.errOut) ∧
      ((t'.exitCode = 0 ∧ t'.windowsDestroyed = true) ∨ t'.exitCode = 1) ∧
      (t'.exitCode = 0 ↔
        (w.setMetricsResult = Status.ok ∧ w.setVideoResult = Status.ok ∧
         w.setStatusResult = Status.ok ∧ w.initResult = Status.ok ∧
         runLoop headless w.runEvents = Status.ok)) ∧
      (t'.runInvoked = true →
        (t'.exitCode = 0 ↔ runLoop headless w.runEvents = Status.ok)) := by
  unfold tryBody.tryBodyRest
  split
  case isTrue hm =>
    refine ⟨_, rfl, rfl, rfl, rfl, ?_⟩
    simp_all [Status.isOk_iff, Status.isOk_false_iff]
    try tauto
  case isFalse hm =>
    split
    case isTrue hv =>
      refine ⟨_, rfl, rfl, rfl, rfl, ?_⟩
      simp_all [Status.isOk_iff, Status.isOk_false_iff]
      try tauto
    case isFalse hv =>
      split
      case isTrue hs =>
        refine ⟨_, rfl, rfl, rfl, rfl, ?_⟩
        simp_all [Status.isOk_iff, Status.isOk_false_iff]
        try tauto
      case isFalse hs =>
        split
        case isTrue hi =>
          refine ⟨_, rfl, rfl, rfl, rfl, ?_⟩
          simp_all [Status.isOk_iff, Status.isOk_false_iff]
          try tauto
        case isFalse hi =>
          split
          case h_1 msg hrun =>
            refine ⟨_, rfl, rfl, rfl, rfl, ?_⟩
            simp_all [Status.isOk_iff, Status.isOk_false_iff]
            try tauto
          case h_2 hrun =>
            refine ⟨_, rfl, rfl, rfl, rfl, ?_⟩
            simp_all [Status.isOk_iff, Status.isOk_false_iff]
            try tauto

/-- Helper: implication form of `tryBodyRest_spec`, convenient after `split`
has produced an equation for the call. -/
theorem tryBodyRest_cases (w : World) (headless : Bool) (t : Trace)
    (ht : t.runInvoked = false) :
    (∀ mt, tryBody.tryBodyRest w headless t = Except.error mt → False) ∧
    (∀ t', tryBody.tryBodyRest w headless t = Except.ok t' →
      t'.constructionSettings = t.constructionSettings ∧
      t'.containerConstructed = t.containerConstructed ∧
      t'.exceptionCaught = t.exceptionCaught ∧
      (∀ l ∈ t.out, l ∈ t'.out) ∧
      (∀ l, l ∈ t'.out → l ∈ t.out ∨ l = Line.initializing ∨ l = Line.ready ∨ l = Line.done) ∧
      (∀ l ∈ t.errOut, l ∈ t'.errOut) ∧
      (∀ p, Line.fileNotFound p ∉ t.errOut → Line.fileNotFound p ∉ t'.errOut) ∧
      ((t'.exitCode = 0 ∧ t'.windowsDestroyed = true) ∨ t'.exitCode = 1) ∧
      (t'.exitCode = 0 ↔
        (w.setMetricsResult = Status.ok ∧ w.setVideoResult = Status.ok ∧
         w.setStatusResult = Status.ok ∧ w.initResult = Status.ok ∧
         runLoop headless w.runEvents = Status.ok)) ∧
      (t'.runInvoked = true →
        (t'.exitCode = 0 ↔ runLoop headless w.runEvents = Status.ok))) := by
  obtain ⟨t', heq, hs⟩ := tryBodyRest_spec w headless t ht
  refine ⟨?_, ?_⟩
  · intro mt h
    rw [heq] at h
    cases h
  · intro t'' h
    rw [heq] at h
    injection h with h
    subst h
    exact hs

set_option maxHeartbeats 1000000 in
/-- Helper: characterization of the whole `try` block.  A thrown exception
can come only from the width/height parse or container construction and
escapes before any run-state is reached; a normal return has exit code 0
exactly when every step in `tryConditions` succeeded. -/
theorem tryBody_spec (w : World) (apiKey : String) (pre : List Line) :
    (∀ mt, tryBody w apiKey pre = Except.error mt →
      mt.2.exitCode = 0 ∧ mt.2.runInvoked = false ∧ mt.2.exceptionCaught = false ∧
      mt.2.windowsDestroyed = false ∧ mt.2.containerConstructed = false ∧
      mt.2.constructionSettings = none ∧
      (∀ l ∈ (resolveDeviceIndex w.env).2, l ∈ mt.2.errOut) ∧
      (∀ l ∈ mt.2.out, l ∈ pre) ∧
      ¬ ((parseDim w.env.width 640).isSome = true ∧ (parseDim w.env.height 480).isSome = true ∧
         w.constructorThrows = none)) ∧
    (∀ t, tryBody w apiKey pre = Except.ok t →
      (t.exitCode = 0 ∨ t.exitCode = 1) ∧
      (t.exitCode = 0 ↔ tryConditions w) ∧
      t.exceptionCaught = false ∧
      (∀ l ∈ (resolveDeviceIndex w.env).2, l ∈ t.errOut) ∧
      (∀ l, l ∈ t.out → l ∈ pre ∨ (∃ i p, l = Line.deviceEcho i p) ∨
        (∃ p, l = Line.fileFound p) ∨
        l = Line.initializing ∨ l = Line.ready ∨ l = Line.done) ∧
      (t.runInvoked = true →
        ((t.exitCode = 0 ↔ runLoop (resolveHeadless w.env) w.runEvents = Status.ok) ∧
         (runLoop (resolveHeadless w.env) w.runEvents = Status.ok →
           t.windowsDestroyed = true))) ∧
      (∀ cfg, t.constructionSettings = some cfg →
        cfg.api_key = apiKey ∧
        (t.initializeInvoked = true →
          cfg.video_source.input_video_path = "" ∨
          w.fileGood cfg.video_source.input_video_path = true))) := by
  refine ⟨?_, ?_⟩
  · intro mt h
    simp only [tryBody] at h
    split at h
    case h_1 =>
      simp only [Except.error.injEq] at h
      subst h
      simp_all [tryConditions, t0]
    case h_2 =>
      split at h
      case h_1 =>
        simp only [Except.error.injEq] at h
        subst h
        simp_all [tryConditions, t0]
      case h_2 =>
        split at h
        case h_1 =>
          simp only [Except.error.injEq] at h
          subst h
          simp_all [tryConditions, t0]
        case h_2 =>
          split at h
          · exact absurd h ((tryBodyRest_cases w _ _ (by rfl)).1 mt ·)
          · split at h
            · exact absurd h ((tryBodyRest_cases w _ _ (by rfl)).1 mt ·)
            · cases h
  · intro t h
    simp only [tryBody] at h
    split at h
    case h_1 => cases h
    case h_2 hw =>
      split at h
      case h_1 => cases h
      case h_2 hh =>
        split at h
        case h_1 => cases h
        case h_2 hc =>
          split at h
          case isTrue hpath =>
            have hs := (tryBodyRest_cases w _ _ (by rfl)).2 t h
            refine ⟨?_, ?_, ?_, ?_, ?_, ?_, ?_⟩
            · rcases hs.2.2.2.2.2.2.2.1 with h1 | h1
              · exact Or.inl h1.1
              · exact Or.inr h1
            · rw [hs.2.2.2.2.2.2.2.2.1]
              unfold tryConditions
              simp_all [inputVideoPathOf, String.isEmpty_iff]
              try tauto
            · exact hs.2.2.1.trans rfl
            · intro l hl
              exact hs.2.2.2.2.2.1 l (by simp_all)
            · intro l hl
              rcases hs.2.2.2.2.1 l hl with h1 | h1 | h1 | h1
              · simp only [List.mem_append, List.mem_singleton] at h1
                rcases h1 with h1 | h1
                · exact Or.inl h1
                · exact Or.inr (Or.inl ⟨_, _, h1⟩)
              · tauto
              · tauto
              · tauto
            · intro hr
              refine ⟨hs.2.2.2.2.2.2.2.2.2 hr, ?_⟩
              intro hrun
              have h0 : t.exitCode = 0 := (hs.2.2.2.2.2.2.2.2.2 hr).mpr hrun
              rcases hs.2.2.2.2.2.2.2.1 with h1 | h1
              · exact h1.2
              · rw [h0] at h1; cases h1
            · intro cfg hcfg
              rw [hs.1] at hcfg
              injection hcfg with hcfg
              subst hcfg
              refine ⟨rfl, ?_⟩
              intro h1
              exact Or.inl (by simpa [String.isEmpty_iff] using hpath)
          case isFalse hpath =>
            split at h
            case isTrue hgood =>
              have hs := (tryBodyRest_cases w _ _ (by rfl)).2 t h
              refine ⟨?_, ?_, ?_, ?_, ?_, ?_, ?_⟩
              · rcases hs.2.2.2.2.2.2.2.1 with h1 | h1
                · exact Or.inl h1.1
                · exact Or.inr h1
              · rw [hs.2.2.2.2.2.2.2.2.1]
                unfold tryConditions
                simp_all [inputVideoPathOf, String.isEmpty_iff]
                try tauto
              · exact hs.2.2.1.trans rfl
              · intro l hl
                exact hs.2.2.2.2.2.1 l (by simp_all)
              · intro l hl
                rcases hs.2.2.2.2.1 l hl with h1 | h1 | h1 | h1
                · simp only [List.mem_append, List.mem_singleton] at h1
                  rcases h1 with (h1 | h1) | h1
                  · exact Or.inl h1
                  · exact Or.inr (Or.inl ⟨_, _, h1⟩)
                  · exact Or.inr (Or.inr (Or.inl ⟨_, h1⟩))
                · tauto
                · tauto
                · tauto
              · intro hr
                refine ⟨hs.2.2.2.2.2.2.2.2.2 hr, ?_⟩
                intro hrun
                have h0 : t.exitCode = 0 := (hs.2.2.2.2.2.2.2.2.2 hr).mpr hrun
                rcases hs.2.2.2.2.2.2.2.1 with h1 | h1
                · exact h1.2
                · rw [h0] at h1; cases h1
              · intro cfg hcfg
                rw [hs.1] at hcfg
                injection hcfg with hcfg
                subst hcfg
                refine ⟨rfl, ?_⟩
                intro h1
                exact Or.inr hgood
            case isFalse hgood =>
              simp only [Except.ok.injEq] at h
              subst h
              refine ⟨Or.inr rfl, ?_, rfl, ?_, ?_, ?_, ?_⟩
              · simp only [tryConditions]
                constructor
                · intro h1; cases h1
                · intro h1
                  rcases h1.2.2.2.1 with h2 | h2 <;>
                    simp_all [inputVideoPathOf, String.isEmpty_iff]
              · intro l hl
                simp_all
              · intro l hl
                simp only [List.mem_append, List.mem_singleton] at hl
                rcases hl with hl | hl
                · exact Or.inl hl
                · exact Or.inr (Or.inl ⟨_, _, hl⟩)
              · intro hr
                cases hr
              · intro cfg hcfg
                injection hcfg with hcfg
                subst hcfg
                refine ⟨rfl, ?_⟩
                intro h1
                simp [t0] at h1

/-- Helper: top-level characterization of the driver: the exit code is 0 or
1, it is 0 exactly on the success path, a caught exception forces exit code 1
with a logged error, and once `Run` was invoked the exit code reflects the
run outcome with teardown on an ok outcome. -/
theorem main_spec (w : World) :
    ((helloVitalsMain w).exitCode = 0 ∨ (helloVitalsMain w).exitCode = 1) ∧
    ((helloVitalsMain w).exitCode = 0 ↔ success w) ∧
    ((helloVitalsMain w).exceptionCaught = true →
      (helloVitalsMain w).exitCode = 1 ∧
      ∃ msg, Line.topLevelError msg ∈ (helloVitalsMain w).errOut) ∧
    ((helloVitalsMain w).runInvoked = true →
      ((helloVitalsMain w).exitCode = 0 ↔
        runLoop (resolveHeadless w.env) w.runEvents = Status.ok) ∧
      (runLoop (resolveHeadless w.env) w.runEvents = Status.ok →
        (helloVitalsMain w).windowsDestroyed = true)) := by
  simp only [helloVitalsMain]
  split
  case h_1 hk =>
    refine ⟨Or.inr rfl, ?_, ?_, ?_⟩
    · simp [success, resolvedApiKey, hk, t0]
    · intro h; cases h
    · intro h; cases h
  case h_2 ks hk =>
    split
    case isTrue he =>
      refine ⟨Or.inr rfl, ?_, ?_, ?_⟩
      · simp only [String.isEmpty_iff] at he
        simp [success, resolvedApiKey, hk, he, t0]
      · intro h; cases h
      · intro h; cases h
    case isFalse he =>
      simp only [String.isEmpty_iff] at he
      split
      case h_1 t htb =>
        have hs := (tryBody_spec w ks.1 _).2 t htb
        refine ⟨hs.1, ?_, ?_, hs.2.2.2.2.2.1⟩
        · rw [hs.2.1]
          unfold success
          constructor
          · intro h1
            exact ⟨⟨ks.1, by simp [resolvedApiKey, hk], he⟩, h1⟩
          · intro h1
            exact h1.2
        · intro h1
          rw [hs.2.2.1] at h1
          cases h1
      case h_2 mt htb =>
        have hs := (tryBody_spec w ks.1 _).1 mt htb
        refine ⟨Or.inr rfl, ?_, ?_, ?_⟩
        · simp only [Nat.one_ne_zero, false_iff]
          intro h1
          exact hs.2.2.2.2.2.2.2.2 ⟨h1.2.1, h1.2.2.1, h1.2.2.2.1⟩
        · intro h1
          refine ⟨rfl, mt.1, ?_⟩
          simp
        · intro h1
          rw [hs.2.1] at h1
          cases h1

/-- C1: the metrics callback emits a vitals line iff both the pulse-rate and
the breathing-rate series are non-empty; when it emits, the printed pulse and
breathing values are the last values of the respective series; and every
`rbegin()->value()` read it performs is on a non-empty series. -/
theorem metrics_callback_correct (pr br : List Rat) :
    ((metricsCallback ⟨pr, br⟩).line.isSome ↔ (pr ≠ [] ∧ br ≠ [])) ∧
    (∀ p b, (metricsCallback ⟨pr, br⟩).line = some (p, b) →
      pr.getLast? = some p ∧ br.getLast? = some b) ∧
    (∀ s ∈ (metricsCallback ⟨pr, br⟩).reads, s ≠ []) := by
  refine ⟨?_, ?_, ?_⟩
  · by_cases hp : pr = [] <;> by_cases hb : br = [] <;>
      simp [metricsCallback, hp, hb]
  · intro p b h
    by_cases hp : pr = [] <;> by_cases hb : br = [] <;>
      simp [metricsCallback, hp, hb] at h
    obtain ⟨x, hx⟩ := Option.isSome_iff_exists.mp (List.getLast?_isSome.mpr hp)
    obtain ⟨y, hy⟩ := Option.isSome_iff_exists.mp (List.getLast?_isSome.mpr hb)
    rw [hx, hy] at h
    simp at h
    rw [hx, hy, h.1, h.2]
    exact ⟨rfl, rfl⟩
  · intro s hs
    by_cases hp : pr = [] <;> by_cases hb : br = [] <;>
      simp [metricsCallback, hp, hb] at hs ⊢ <;>
      first
        | (subst hs; simp [hp, hb])
        | (rcases hs with hs | hs <;> subst hs <;> simp [hp, hb])

/-- Witness for C1 at a concrete snapshot: pulse series [60, 72],
breathing series [12, 15]. -/
theorem metrics_callback_correct_witness :
    [(60 : Rat), 72].getLast? = some 72 ∧ [(12 : Rat), 15].getLast? = some 15 :=
  (metrics_callback_correct [60, 72] [12, 15]).2.1 72 15 (by decide)

/-- C5: when not headless, the video callback displays the frame, polls for a
key, and returns the cancellation outcome exactly when the polled key is `'q'`
or escape, success otherwise; when headless it performs no display work and
returns success. -/
theorem video_callback_correct (headless : Bool) (k : Int) :
    (headless = false →
      (videoCallback headless k).displayed = true ∧
      (videoCallback headless k).polled = true ∧
      ((videoCallback headless k).status = CallbackStatus.cancelled "User quit" ↔ isQuitKey k) ∧
      (¬ isQuitKey k → (videoCallback headless k).status = CallbackStatus.ok)) ∧
    (headless = true →
      (videoCallback headless k).displayed = false ∧
      (videoCallback headless k).polled = false ∧
      (videoCallback headless k).status = CallbackStatus.ok) := by
  cases headless <;> by_cases hq : isQuitKey k <;>
    simp [videoCallback, hq]

/-- Witness for C5 at concrete inputs: pressing `'q'` (waitKey 113) cancels,
escape (27) cancels, `'s'` (115) does not; headless does no display work. -/
theorem video_callback_correct_witness :
    (videoCallback false 113).status = CallbackStatus.cancelled "User quit" ∧
    (videoCallback false 27).status = CallbackStatus.cancelled "User quit" ∧
    (videoCallback false 115).status = CallbackStatus.ok ∧
    (videoCallback true 113).displayed = false :=
  ⟨((video_callback_correct false 113).1 rfl).2.2.1.mpr (by decide),
   ((video_callback_correct false 27).1 rfl).2.2.1.mpr (by decide),
   ((video_callback_correct false 115).1 rfl).2.2.2 (by decide),
   ((video_callback_correct true 113).2 rfl).1⟩

/-- Helper: the device-index resolution step prints at most the
camera-index warning. -/
theorem resolveDeviceIndex_snd (env : EnvVars) :
    ∀ l ∈ (resolveDeviceIndex env).2, l = Line.cameraIndexWarning := by
  unfold resolveDeviceIndex
  split
  · simp
  · split <;> simp

/-- C7: the process exit code is 0 exactly on the success path, and 1 for
every failure — missing/empty credential, unreadable configured input file,
callback registration failure, initialization failure, run-time processing
failure — while any uncaught exception is caught at the top level, logged as
an error line, and mapped to exit code 1. -/
theorem exit_code_taxonomy (w : World) :
    ((helloVitalsMain w).exitCode = 0 ∨ (helloVitalsMain w).exitCode = 1) ∧
    ((helloVitalsMain w).exitCode = 0 ↔ success w) ∧
    ((helloVitalsMain w).exceptionCaught = true →
      (helloVitalsMain w).exitCode = 1 ∧
      ∃ msg, Line.topLevelError msg ∈ (helloVitalsMain w).errOut) :=
  ⟨(main_spec w).1, (main_spec w).2.1, (main_spec w).2.2.1⟩

/-- Witness for C7 at a concrete input: a world whose width variable makes
the unguarded parse throw is caught at the top level and exits 1. -/
theorem exit_code_taxonomy_witness :
    (helloVitalsMain wBadWidth).exitCode = 1 ∧
    ∃ msg, Line.topLevelError msg ∈ (helloVitalsMain wBadWidth).errOut :=
  (exit_code_taxonomy wBadWidth).2.2 (by decide)

/-- C6: if the video callback returns a cancellation outcome during the run
(after a prefix of events that keep the loop going), the `Run` call
terminates with an ok status and the process exits with code 0 and tears the
window down: user cancellation is a normal terminal path, not an error. -/
theorem user_cancellation_normal (w : World) (pre post : List RunEvent) (k : Int)
    (hev : w.runEvents = pre ++ RunEvent.videoTick k :: post)
    (hcont : ∀ e ∈ pre, eventContinues (resolveHeadless w.env) e)
    (hcancel : (videoCallback (resolveHeadless w.env) k).status =
      CallbackStatus.cancelled "User quit")
    (hrun : (helloVitalsMain w).runInvoked = true) :
    (helloVitalsMain w).exitCode = 0 ∧ (helloVitalsMain w).windowsDestroyed = true := by
  have hok : runLoop (resolveHeadless w.env) w.runEvents = Status.ok := by
    rw [hev]
    exact runLoop_cancel_ok (resolveHeadless w.env) pre k post hcont _ hcancel
  have hm := (main_spec w).2.2.2 hrun
  exact ⟨hm.1.mpr hok, hm.2 hok⟩

/-- Witness for C6 at a concrete input: a run whose second frame polls `'q'`
ends with exit code 0 and the window destroyed. -/
theorem user_cancellation_normal_witness :
    (helloVitalsMain wQuit).exitCode = 0 ∧
    (helloVitalsMain wQuit).windowsDestroyed = true :=
  user_cancellation_normal wQuit [RunEvent.videoTick (-1)] [] 113 rfl
    (by
      intro e he
      simp only [List.mem_singleton] at he
      subst he
      show (videoCallback (resolveHeadless wQuit.env) (-1)).status = CallbackStatus.ok
      decide)
    (by decide) (by decide)

/-- C9: on every completion of the run with an ok outcome — natural stream
end or user cancellation — the display window is destroyed before the
process exits, and the exit code is 0. -/
theorem teardown_on_completion (w : World)
    (hrun : (helloVitalsMain w).runInvoked = true)
    (hok : runLoop (resolveHeadless w.env) w.runEvents = Status.ok) :
    (helloVitalsMain w).windowsDestroyed = true ∧
    (helloVitalsMain w).exitCode = 0 := by
  have hm := (main_spec w).2.2.2 hrun
  exact ⟨hm.2 hok, hm.1.mpr hok⟩

/-- Witness for C9 at a concrete input: a benign world whose stream ends
naturally tears the window down and exits 0. -/
theorem teardown_on_completion_witness :
    (helloVitalsMain benignWorld).windowsDestroyed = true ∧
    (helloVitalsMain benignWorld).exitCode = 0 :=
  teardown_on_completion benignWorld (by decide) (by decide)

/-- Helper: a string's `isEmpty` is false exactly when it differs from "". -/
theorem String.isEmpty_false_iff (s : String) : s.isEmpty = false ↔ s ≠ "" := by
  rw [← Bool.not_eq_true, String.isEmpty_iff]

/-- Helper: inversion of `resolvedApiKey`. -/
theorem resolvedApiKey_inv (w : World) (k : String) (h : resolvedApiKey w = some k) :
    ∃ ks, resolveApiKey w = some ks ∧ ks.1 = k := by
  unfold resolvedApiKey at h
  cases hrk : resolveApiKey w with
  | none => rw [hrk] at h; cases h
  | some ks =>
    rw [hrk] at h
    simp at h
    exact ⟨ks, rfl, h⟩

/-- C2 (amended): credential resolution takes argv[1] first, then the
SMARTSPECTRA_API_KEY environment variable; the program prints usage guidance
and exits 1 before constructing the container exactly when the credential
selected by that precedence is absent or empty.  (The environment is not
consulted when an argv credential — even an empty one — is supplied.) -/
theorem credential_resolution (w : World) :
    (∀ k, w.argv1 = some k → resolveApiKey w = some (k, "argv[1]")) ∧
    (∀ k, w.argv1 = none → w.env.apiKey = some k →
      resolveApiKey w = some (k, "SMARTSPECTRA_API_KEY")) ∧
    (((helloVitalsMain w).exitCode = 1 ∧
      (helloVitalsMain w).containerConstructed = false ∧
      (Line.usage2 ∈ (helloVitalsMain w).out ∨ Line.emptyKey ∈ (helloVitalsMain w).out)) ↔
     (resolvedApiKey w = none ∨ resolvedApiKey w = some "")) := by
  refine ⟨?_, ?_, ?_⟩
  · intro k hk
    simp [resolveApiKey, hk]
  · intro k h1 h2
    simp [resolveApiKey, h1, h2]
  · simp only [helloVitalsMain]
    split
    case h_1 hk =>
      constructor
      · intro _
        exact Or.inl (by simp [resolvedApiKey, hk])
      · intro _
        refine ⟨rfl, rfl, Or.inl (by simp)⟩
    case h_2 ks hk =>
      split
      case isTrue he =>
        simp only [String.isEmpty_iff] at he
        constructor
        · intro _
          exact Or.inr (by simp [resolvedApiKey, hk, he])
        · intro _
          refine ⟨rfl, rfl, Or.inr (by simp)⟩
      case isFalse he =>
        simp only [String.isEmpty_iff] at he
        constructor
        · rintro ⟨h1, h2, h3⟩
          exfalso
          revert h1 h2 h3
          split
          case h_1 t htb =>
            intro h1 h2 h3
            have hsp := (tryBody_spec w ks.1 _).2 t htb
            rcases h3 with h3 | h3 <;>
              rcases hsp.2.2.2.2.1 _ h3 with hm | hm | hm | hm | hm | hm <;>
                simp at hm
          case h_2 mt htb =>
            intro h1 h2 h3
            have hsp := (tryBody_spec w ks.1 _).1 mt htb
            rcases h3 with h3 | h3 <;>
              · have hm := hsp.2.2.2.2.2.2.2.1 _ (by simpa using h3)
                simp at hm
        · rintro (h1 | h1)
          · simp [resolvedApiKey, hk] at h1
          · simp [resolvedApiKey, hk] at h1
            exact absurd h1 he

/-- Witness for C2 at a concrete input: the argv credential is selected with
its source label. -/
theorem credential_resolution_witness :
    resolveApiKey benignWorld = some ("demo-key", "argv[1]") :=
  (credential_resolution benignWorld).1 "demo-key" rfl

/-- Counterexample to C2 as stated: with argv[1] = "" and
SMARTSPECTRA_API_KEY = "secret", a source does yield a non-empty credential,
yet the program still prints guidance and exits 1 before construction — the
claimed "if and only if neither source yields a non-empty value" fails. -/
theorem credential_resolution_counterexample :
    (helloVitalsMain wC2).exitCode = 1 ∧
    (helloVitalsMain wC2).containerConstructed = false ∧
    Line.emptyKey ∈ (helloVitalsMain wC2).out ∧
    wC2.env.apiKey = some "secret" ∧ ("secret" : String) ≠ "" := by
  decide

/-- C3: under an otherwise well-formed configuration, a configured input
video path that does not exist makes the program exit 1 and print the
file-not-found diagnostic without ever invoking Initialize; an existing path
passes the check (the found message is printed) and the early-exit
diagnostic never appears. -/
theorem input_file_check (w : World) (k p : String)
    (hkey : resolvedApiKey w = some k) (hne : k ≠ "")
    (hw : (parseDim w.env.width 640).isSome = true)
    (hh : (parseDim w.env.height 480).isSome = true)
    (hc : w.constructorThrows = none)
    (hp : w.env.inputVideo = some p) (hpne : p ≠ "") :
    (w.fileGood p = false →
      (helloVitalsMain w).exitCode = 1 ∧
      Line.fileNotFound p ∈ (helloVitalsMain w).errOut ∧
      (helloVitalsMain w).initializeInvoked = false) ∧
    (w.fileGood p = true →
      Line.fileFound p ∈ (helloVitalsMain w).out ∧
      Line.fileNotFound p ∉ (helloVitalsMain w).errOut) := by
  obtain ⟨ks, hks, hk1⟩ := resolvedApiKey_inv w k hkey
  obtain ⟨cw, hcw⟩ := Option.isSome_iff_exists.mp hw
  obtain ⟨ch, hch⟩ := Option.isSome_iff_exists.mp hh
  have hemp : ks.1.isEmpty = false := by
    rw [hk1]
    exact (String.isEmpty_false_iff k).mpr hne
  have hpe : p.isEmpty = false := (String.isEmpty_false_iff p).mpr hpne
  simp only [helloVitalsMain, hks]
  rw [if_neg (by simp [hemp])]
  simp only [tryBody, hcw, hch, hc, hp, Option.getD_some, hpe]
  rw [if_neg (by simp)]
  refine ⟨?_, ?_⟩
  · intro hfg
    rw [if_neg (by simp [hfg])]
    refine ⟨rfl, ?_, rfl⟩
    simp
  · intro hfg
    rw [if_pos hfg]
    split
    case h_1 t heq =>
      have hs := (tryBodyRest_cases w _ _ (by rfl)).2 t heq
      refine ⟨?_, ?_⟩
      · exact hs.2.2.2.1 _ (by simp)
      · refine hs.2.2.2.2.2.2.1 p ?_
        intro hmem
        have h2 := resolveDeviceIndex_snd w.env _ hmem
        simp at h2
    case h_2 mt heq =>
      exact absurd heq ((tryBodyRest_cases w _ _ (by rfl)).1 mt)

/-- Witness for C3 at a concrete input: a missing `/missing.mp4` exits 1
with the diagnostic and without Initialize. -/
theorem input_file_check_witness :
    (helloVitalsMain wMissingFile).exitCode = 1 ∧
    Line.fileNotFound "/missing.mp4" ∈ (helloVitalsMain wMissingFile).errOut ∧
    (helloVitalsMain wMissingFile).initializeInvoked = false :=
  (input_file_check wMissingFile "demo-key" "/missing.mp4" (by decide) (by decide)
    (by decide) (by decide) rfl rfl (by decide)).1 rfl

/-- Counterexample to C4 as stated: the container is constructed before the
input-file readability check, so with an unreadable configured path the
construction-time configuration holds that unreadable path. -/
theorem construction_invariant_counterexample :
    (helloVitalsMain wMissingFile).containerConstructed = true ∧
    ((helloVitalsMain wMissingFile).constructionSettings.map
      (fun s => s.video_source.input_video_path)) = some "/missing.mp4" ∧
    wMissingFile.fileGood "/missing.mp4" = false := by
  refine ⟨rfl, rfl, rfl⟩

/-- C4 (amended): at the moment the container is constructed the credential
in the configuration is non-empty; the readability of a configured input
file is verified after construction but before Initialize, so whenever
Initialize is invoked the configured path is empty or readable. -/
theorem construction_invariant (w : World) :
    ∀ cfg, (helloVitalsMain w).constructionSettings = some cfg →
      cfg.api_key ≠ "" ∧
      ((helloVitalsMain w).initializeInvoked = true →
        cfg.video_source.input_video_path = "" ∨
        w.fileGood cfg.video_source.input_video_path = true) := by
  intro cfg
  simp only [helloVitalsMain]
  split
  case h_1 hk =>
    intro hcfg
    simp [t0] at hcfg
  case h_2 ks hk =>
    split
    case isTrue he =>
      intro hcfg
      simp [t0] at hcfg
    case isFalse he =>
      simp only [String.isEmpty_iff] at he
      split
      case h_1 t htb =>
        intro hcfg
        have hsp := (tryBody_spec w ks.1 _).2 t htb
        have hcc := hsp.2.2.2.2.2.2 cfg hcfg
        refine ⟨?_, hcc.2⟩
        rw [hcc.1]
        exact he
      case h_2 mt htb =>
        intro hcfg
        have hsp := (tryBody_spec w ks.1 _).1 mt htb
        dsimp only at hcfg
        rw [hsp.2.2.2.2.2.1] at hcfg
        cases hcfg

/-- Witness for C4 (amended) at a concrete input: the readable-file world
constructs with `cfgGood`, whose credential is non-empty and whose path is
readable whenever Initialize runs. -/
theorem construction_invariant_witness :
    cfgGood.api_key ≠ "" ∧
    ((helloVitalsMain wGoodFile).initializeInvoked = true →
      cfgGood.video_source.input_video_path = "" ∨
      wGoodFile.fileGood cfgGood.video_source.input_video_path = true) :=
  construction_invariant wGoodFile cfgGood rfl

/-- C8: a non-integer camera-index environment value makes the device index
fall back to the default 0 with a warning on stderr, and it never changes the
program's exit outcome: the exit code equals that of the same world with the
variable unset. -/
theorem camera_index_fallback (w : World) (s : String)
    (hcam : w.env.cameraIndex = some s) (hbad : stoiInt s = none) :
    resolveDeviceIndex w.env = (0, [Line.cameraIndexWarning]) ∧
    (∀ k, resolvedApiKey w = some k → k ≠ "" →
      Line.cameraIndexWarning ∈ (helloVitalsMain w).errOut) ∧
    (helloVitalsMain w).exitCode = (helloVitalsMain (dropCameraIndex w)).exitCode := by
  have h1 : resolveDeviceIndex w.env = (0, [Line.cameraIndexWarning]) := by
    simp [resolveDeviceIndex, hcam, hbad]
  refine ⟨h1, ?_, ?_⟩
  · intro k hk hne
    obtain ⟨ks, hks, hk1⟩ := resolvedApiKey_inv w k hk
    have hemp : ks.1.isEmpty = false := by
      rw [hk1]
      exact (String.isEmpty_false_iff k).mpr hne
    simp only [helloVitalsMain, hks]
    rw [if_neg (by simp [hemp])]
    split
    case h_1 t htb =>
      have hsp := (tryBody_spec w ks.1 _).2 t htb
      exact hsp.2.2.2.1 Line.cameraIndexWarning (by rw [h1]; simp)
    case h_2 mt htb =>
      have hsp := (tryBody_spec w ks.1 _).1 mt htb
      have hmem := hsp.2.2.2.2.2.2.1 Line.cameraIndexWarning (by rw [h1]; simp)
      simp only [List.mem_append]
      exact Or.inl hmem
  · have hsw : success w ↔ success (dropCameraIndex w) := Iff.rfl
    rcases (main_spec w).1 with h2 | h2 <;>
      rcases (main_spec (dropCameraIndex w)).1 with h3 | h3
    · rw [h2, h3]
    · exfalso
      have h4 := ((main_spec (dropCameraIndex w)).2.1).mpr
        (hsw.mp ((main_spec w).2.1.mp h2))
      rw [h3] at h4
      cases h4
    · exfalso
      have h4 := ((main_spec w).2.1).mpr
        (hsw.mpr ((main_spec (dropCameraIndex w)).2.1.mp h3))
      rw [h2] at h4
      cases h4
    · rw [h2, h3]

/-- Witness for C8 at a concrete input: SMARTSPECTRA_CAMERA_INDEX="abc"
falls back to index 0 and prints the warning. -/
theorem camera_index_fallback_witness :
    resolveDeviceIndex wBadCamera.env = (0, [Line.cameraIndexWarning]) ∧
    Line.cameraIndexWarning ∈ (helloVitalsMain wBadCamera).errOut := by
  have h := camera_index_fallback wBadCamera "abc" rfl (by decide)
  exact ⟨h.1, h.2.1 "demo-key" (by decide) (by decide)⟩

/-- C10: a non-integer SMARTSPECTRA_WIDTH (or, with a parseable width, a
non-integer SMARTSPECTRA_HEIGHT) does not fall back to the 640/480 defaults:
the unguarded parse throws, only the top-level handler catches it, the
container is never constructed, and the program exits with code 1 — unlike
the camera-index variable, which recovers locally. -/
theorem dims_parse_exception (w : World) (k s : String)
    (hkey : resolvedApiKey w = some k) (hne : k ≠ "")
    (hcase : (w.env.width = some s ∧ stoiInt s = none) ∨
      ((parseDim w.env.width 640).isSome = true ∧
        w.env.height = some s ∧ stoiInt s = none)) :
    (helloVitalsMain w).exceptionCaught = true ∧
    (helloVitalsMain w).exitCode = 1 ∧
    (helloVitalsMain w).containerConstructed = false ∧
    (helloVitalsMain w).constructionSettings = none ∧
    Line.topLevelError "stoi" ∈ (helloVitalsMain w).errOut := by
  obtain ⟨ks, hks, hk1⟩ := resolvedApiKey_inv w k hkey
  have hemp : ks.1.isEmpty = false := by
    rw [hk1]
    exact (String.isEmpty_false_iff k).mpr hne
  simp only [helloVitalsMain, hks]
  rw [if_neg (by simp [hemp])]
  rcases hcase with ⟨hwv, hbad⟩ | ⟨hwp, hhv, hbad⟩
  · have hpw : parseDim w.env.width 640 = none := by
      simp [parseDim, hwv, hbad]
    simp [tryBody, hpw, t0]
  · obtain ⟨cw, hcw⟩ := Option.isSome_iff_exists.mp hwp
    have hph : parseDim w.env.height 480 = none := by
      simp [parseDim, hhv, hbad]
    simp [tryBody, hcw, hph, t0]

/-- Witness for C10 at a concrete input: SMARTSPECTRA_WIDTH="wide" exits 1
through the top-level handler without constructing the container. -/
theorem dims_parse_exception_witness :
    (helloVitalsMain wBadWidth).exceptionCaught = true ∧
    (helloVitalsMain wBadWidth).exitCode = 1 ∧
    (helloVitalsMain wBadWidth).containerConstructed = false ∧
    (helloVitalsMain wBadWidth).constructionSettings = none ∧
    Line.topLevelError "stoi" ∈ (helloVitalsMain wBadWidth).errOut :=
  dims_parse_exception wBadWidth "demo-key" "wide" (by decide) (by decide)
    (Or.inl ⟨rfl, by decide⟩)

end HelloVitals
